import Mathlib

/-!
Shallow embedding of the thumbnail management subsystem of
`home/src/download/thumbnails.py` (classes `ThumbManagerBase`,
`ThumbManager`, `ValidatorCallback`).

Modelling conventions:
- The network is a function `net : Nat → Attempt` giving the outcome of the
  n-th HTTP request issued during the run (the `World` carries the running
  request counter).  `requests.get` raising `RequestException` is
  `Attempt.netError`; otherwise the response carries its status code and a
  body that either decodes to an image or raises `UnidentifiedImageError`
  (`Body.corrupt`).  `response.ok` is `status < 400`, as in the requests
  library.
- `PIL.Image.open` on a file path is abstracted as a parameter
  `fsOpen : String → Image`; an `Image` records the path/url it came from
  and its pixel dimensions.
- The filesystem cache is an association list `fs : List (String × Image)`
  inside `World`; `os.path.exists` is a lookup, saving a file prepends,
  `os.remove` filters.  Directory creation (`os.makedirs`) has no observable
  effect on the modelled state and is omitted.  `time.sleep(d)` appends `d`
  to the `sleeps` trace.
- Python exceptions are `Except PyError`: `KeyError` from
  `default_map[self.item_type]`, `AttributeError` from calling `.size` or
  `.convert` on the sentinel `False` that `download_raw` returns after
  exhausting its retries.  The sentinel itself is `Option Image` with
  `none` for `False`.
- Python's `ThumbManagerBase.__init__` default `fallback=False` is
  `fallback = none`.
- Pixel arithmetic in `download_video_thumb` uses Python floats whose values
  here are dyadic rationals (divisions by 16 and 2 only), represented
  exactly in ℚ; `PIL.Image.crop` rounds its box with Python's `round`
  (round-half-to-even), modelled by `pyRound`.
-/

namespace Tube

/-- A decoded bitmap: provenance (the url or file path it was opened from)
and pixel dimensions. -/
structure Image where
  src : String
  width : Int
  height : Int
deriving DecidableEq

/-- Body of an HTTP response with status < 400: either it decodes as an
image, or `PIL.Image.open` raises `UnidentifiedImageError`. -/
inductive Body where
  | image (img : Image)
  | corrupt
deriving DecidableEq

/-- Outcome of one `requests.get` call: a `RequestException` at network
level, or a response with a status code and a body. -/
inductive Attempt where
  | netError
  | response (status : Nat) (body : Body)
deriving DecidableEq

/-- The Python exceptions the modelled code can raise. -/
inductive PyError where
  | keyError (key : String)
  | attributeError (attr : String)
  | typeError
deriving DecidableEq

/-- The slice of `AppConfig().config` the code reads. -/
structure Config where
  cache_dir : String
  app_root : String
deriving DecidableEq

/-- A `ThumbManager` instance: `item_id`, `item_type` and the optional
explicit `fallback` path (`False` in Python is `none`). `item_type` is
mutable in the source, so functions that assign it return the updated
handler. -/
structure Handler where
  item_id : String
  item_type : String
  fallback : Option String
deriving DecidableEq

/-- Observable state threaded through the code: the cache filesystem, the
number of HTTP requests issued so far, and the trace of sleeps performed. -/
structure World where
  fs : List (String × Image)
  fetches : Nat
  sleeps : List Nat
deriving DecidableEq

/-- `os.path.join` for the relative-component joins the code performs. -/
def pjoin (a b : String) : String := a ++ "/" ++ b

/-- `os.path.exists` / reading a cached file: lookup in the association
list, newest entry first. -/
def fsLookup (fs : List (String × Image)) (p : String) : Option Image :=
  match fs with
  | [] => none
  | (q, img) :: rest => if q = p then some img else fsLookup rest p

/-- `os.remove`: drop every entry at the path. -/
def fsRemove (fs : List (String × Image)) (p : String) : List (String × Image) :=
  match fs with
  | [] => []
  | (q, img) :: rest =>
    if q = p then fsRemove rest p else (q, img) :: fsRemove rest p

/-- The `default_map` dict in `ThumbManagerBase.get_fallback`: bundled
default image path per `item_type`, `none` for a key not in the dict. -/
def default_map (app_root : String) (item_type : String) : Option String :=
  if item_type = "video" then
    some (pjoin app_root "static/img/default-video-thumb.jpg")
  else if item_type = "playlist" then
    some (pjoin app_root "static/img/default-video-thumb.jpg")
  else if item_type = "icon" then
    some (pjoin app_root "static/img/default-channel-icon.jpg")
  else if item_type = "banner" then
    some (pjoin app_root "static/img/default-channel-banner.jpg")
  else none

/-- `ThumbManagerBase.get_fallback`: prefer the explicit `self.fallback`
path; otherwise `default_map[self.item_type]`, raising `KeyError` when the
kind is not in the dict. -/
def get_fallback (cfg : Config) (fsOpen : String → Image) (h : Handler) :
    Except PyError Image :=
  match h.fallback with
  | some fb => .ok (fsOpen fb)
  | none =>
    match default_map cfg.app_root h.item_type with
    | some path => .ok (fsOpen path)
    | none => .error (.keyError h.item_type)

/-- The `for i in range(3)` loop body of `ThumbManagerBase.download_raw`,
structurally recursive on the remaining iterations (`fuel = 3 - i`).
A 2xx/3xx response returns the decoded image, or the fallback when the body
is undecodable; a 404 returns the fallback; any other status falls through
to the next iteration without sleeping; a network error sleeps
`(i + 1) ** i` and retries.  Falling off the loop returns the sentinel
`False` (`none`). -/
def download_raw_loop (net : Nat → Attempt) (cfg : Config)
    (fsOpen : String → Image) (h : Handler) :
    Nat → Nat → World → Except PyError (Option Image) × World
  | _, 0, w => (.ok none, w)
  | i, fuel + 1, w =>
    let att := net w.fetches
    let w1 : World := { w with fetches := w.fetches + 1 }
    match att with
    | .netError =>
      let w2 : World := { w1 with sleeps := w1.sleeps ++ [(i + 1) ^ i] }
      download_raw_loop net cfg fsOpen h (i + 1) fuel w2
    | .response status body =>
      if status < 400 then
        match body with
        | .image img => (.ok (some img), w1)
        | .corrupt => ((get_fallback cfg fsOpen h).map some, w1)
      else if status = 404 then
        ((get_fallback cfg fsOpen h).map some, w1)
      else
        download_raw_loop net cfg fsOpen h (i + 1) fuel w1

/-- `ThumbManagerBase.download_raw`: a falsy url (`None` or `""`) returns
the fallback immediately; otherwise run the retry loop. `none` in the
result's `ok` branch is the sentinel `False`. -/
def download_raw (net : Nat → Attempt) (cfg : Config)
    (fsOpen : String → Image) (h : Handler) (url : Option String)
    (w : World) : Except PyError (Option Image) × World :=
  if url = none ∨ url = some "" then
    ((get_fallback cfg fsOpen h).map some, w)
  else
    download_raw_loop net cfg fsOpen h 0 3 w

/-- Python's `round` (round half to even), as applied by `PIL.Image.crop`
to each coordinate of the crop box. -/
def pyRound (q : ℚ) : ℤ :=
  if q - ⌊q⌋ < 1 / 2 then ⌊q⌋
  else if 1 / 2 < q - ⌊q⌋ then ⌊q⌋ + 1
  else if ⌊q⌋ % 2 = 0 then ⌊q⌋ else ⌊q⌋ + 1

/-- `PIL.Image.crop((x0, y0, x1, y1))`: the box is rounded coordinatewise
with Python `round`; the result has size `(x1 - x0, y1 - y0)` after
rounding. -/
def crop (img : Image) (x0 y0 x1 y1 : ℚ) : Image :=
  { img with width := pyRound x1 - pyRound x0, height := pyRound y1 - pyRound y0 }

/-- First character of the id; Python `item_id[0]` raises `IndexError` on
an empty id, a case no claim exercises — the model totalises it with an
arbitrary default. -/
def first_char (s : String) : Char := s.data.headD 'a'

/-- `ThumbManager.vid_thumb_path`: `videos/<lower(id[0])>/<id>.jpg`,
prefixed with the cache root when `absolute`.  The `create_folder` side
effect (`os.makedirs`) has no observable effect on the modelled state. -/
def vid_thumb_path (cfg : Config) (h : Handler) (absolute : Bool) : String :=
  let folder_name := String.mk [(first_char h.item_id).toLower]
  let folder_path := pjoin "videos" folder_name
  let thumb_path := pjoin folder_path (h.item_id ++ ".jpg")
  if absolute then pjoin cfg.cache_dir thumb_path else thumb_path

/-- The channel-icon cache path `os.path.join(CHANNEL_DIR, f"<id>_thumb.jpg")`
with `CHANNEL_DIR = os.path.join(CACHE_DIR, "channels")`. -/
def channel_thumb_path (cfg : Config) (id : String) : String :=
  pjoin (pjoin cfg.cache_dir "channels") (id ++ "_thumb.jpg")

/-- The channel-banner cache path `os.path.join(CHANNEL_DIR, id + "_banner.jpg")`. -/
def channel_banner_path (cfg : Config) (id : String) : String :=
  pjoin (pjoin cfg.cache_dir "channels") (id ++ "_banner.jpg")

/-- The playlist cache path `os.path.join(PLAYLIST_DIR, f"<id>.jpg")` with
`PLAYLIST_DIR = os.path.join(CACHE_DIR, "playlists")`. -/
def playlist_thumb_path (cfg : Config) (id : String) : String :=
  pjoin (pjoin cfg.cache_dir "playlists") (id ++ ".jpg")

/-- `ThumbManager.download_video_thumb`: skip when the target exists and
`skip_existing`; otherwise fetch, read `.size` (an `AttributeError` when
`download_raw` returned the sentinel `False`), center-crop to 16:9 when the
ratio check fails, and save.  `convert("RGB")` does not change dimensions
and is omitted. -/
def download_video_thumb (net : Nat → Attempt) (cfg : Config)
    (fsOpen : String → Image) (h : Handler) (url : Option String)
    (skip_existing : Bool) (w : World) : Except PyError Unit × World :=
  let thumb_path := vid_thumb_path cfg h true
  if skip_existing && (fsLookup w.fs thumb_path).isSome then (.ok (), w)
  else
    match download_raw net cfg fsOpen h url w with
    | (.error e, w1) => (.error e, w1)
    | (.ok none, w1) => (.error (.attributeError "size"), w1)
    | (.ok (some img), w1) =>
      let width := img.width
      let height := img.height
      let img2 :=
        if ¬((width : ℚ) / (height : ℚ) = 16 / 9) then
          let new_height : ℚ := (width : ℚ) / 16 * 9
          let offset : ℚ := ((height : ℚ) - new_height) / 2
          crop img 0 offset (width : ℚ) ((height : ℚ) - offset)
        else img
      (.ok (), { w1 with fs := (thumb_path, img2) :: w1.fs })

/-- `ThumbManager._download_channel_thumb`: assigns `self.item_type = "icon"`
before the skip check, fetches and saves; `.convert` on the sentinel `False`
raises `AttributeError`. -/
def channel_thumb_step (net : Nat → Attempt) (cfg : Config)
    (fsOpen : String → Image) (h : Handler) (channel_thumb : Option String)
    (skip_existing : Bool) (w : World) : Except PyError Unit × Handler × World :=
  let thumb_path := channel_thumb_path cfg h.item_id
  let h1 : Handler := { h with item_type := "icon" }
  if skip_existing && (fsLookup w.fs thumb_path).isSome then (.ok (), h1, w)
  else
    match download_raw net cfg fsOpen h1 channel_thumb w with
    | (.error e, w1) => (.error e, h1, w1)
    | (.ok none, w1) => (.error (.attributeError "convert"), h1, w1)
    | (.ok (some img), w1) => (.ok (), h1, { w1 with fs := (thumb_path, img) :: w1.fs })

/-- `ThumbManager._download_channel_banner`: assigns
`self.item_type = "banner"` before the skip check, fetches and saves. -/
def channel_banner_step (net : Nat → Attempt) (cfg : Config)
    (fsOpen : String → Image) (h : Handler) (channel_banner : Option String)
    (skip_existing : Bool) (w : World) : Except PyError Unit × Handler × World :=
  let banner_path := channel_banner_path cfg h.item_id
  let h1 : Handler := { h with item_type := "banner" }
  if skip_existing && (fsLookup w.fs banner_path).isSome then (.ok (), h1, w)
  else
    match download_raw net cfg fsOpen h1 channel_banner w with
    | (.error e, w1) => (.error e, h1, w1)
    | (.ok none, w1) => (.error (.attributeError "convert"), h1, w1)
    | (.ok (some img), w1) => (.ok (), h1, { w1 with fs := (banner_path, img) :: w1.fs })

/-- `ThumbManager.download_channel_art`: icon then banner; an exception in
the icon step propagates and the banner step never runs. -/
def download_channel_art (net : Nat → Attempt) (cfg : Config)
    (fsOpen : String → Image) (h : Handler)
    (urls : Option String × Option String) (skip_existing : Bool)
    (w : World) : Except PyError Unit × Handler × World :=
  match channel_thumb_step net cfg fsOpen h urls.1 skip_existing w with
  | (.error e, h1, w1) => (.error e, h1, w1)
  | (.ok _, h1, w1) => channel_banner_step net cfg fsOpen h1 urls.2 skip_existing w1

/-- `ThumbManager.download_playlist_thumb`. -/
def download_playlist_thumb (net : Nat → Attempt) (cfg : Config)
    (fsOpen : String → Image) (h : Handler) (url : Option String)
    (skip_existing : Bool) (w : World) : Except PyError Unit × World :=
  let thumb_path := playlist_thumb_path cfg h.item_id
  if skip_existing && (fsLookup w.fs thumb_path).isSome then (.ok (), w)
  else
    match download_raw net cfg fsOpen h url w with
    | (.error e, w1) => (.error e, w1)
    | (.ok none, w1) => (.error (.attributeError "convert"), w1)
    | (.ok (some img), w1) => (.ok (), { w1 with fs := (thumb_path, img) :: w1.fs })

/-- The url argument of `ThumbManager.download`: a single url for
video/playlist or the `(thumb, banner)` tuple for channels (Python passes
one dynamically-typed value). -/
inductive UrlArg where
  | single (u : Option String)
  | pair (us : Option String × Option String)
deriving DecidableEq

/-- `ThumbManager.download`: dispatch on `item_type`; a kind matching no
branch falls through and does nothing.  A branch receiving the wrong url
shape would fail inside the library call; no claim exercises that, modelled
as `TypeError`. -/
def download (net : Nat → Attempt) (cfg : Config) (fsOpen : String → Image)
    (h : Handler) (arg : UrlArg) (w : World) :
    Except PyError Unit × Handler × World :=
  if h.item_type = "video" then
    match arg with
    | .single u =>
      match download_video_thumb net cfg fsOpen h u false w with
      | (r, w1) => (r, h, w1)
    | .pair _ => (.error .typeError, h, w)
  else if h.item_type = "channel" then
    match arg with
    | .pair us => download_channel_art net cfg fsOpen h us false w
    | .single _ => (.error .typeError, h, w)
  else if h.item_type = "playlist" then
    match arg with
    | .single u =>
      match download_playlist_thumb net cfg fsOpen h u false w with
      | (r, w1) => (r, h, w1)
    | .pair _ => (.error .typeError, h, w)
  else (.ok (), h, w)

/-- `ThumbManager.delete_video_thumb`. -/
def delete_video_thumb (cfg : Config) (h : Handler) (w : World) : World :=
  let to_delete := pjoin cfg.cache_dir (vid_thumb_path cfg h false)
  if (fsLookup w.fs to_delete).isSome then { w with fs := fsRemove w.fs to_delete }
  else w

/-- `ThumbManager.delete_channel_thumb`: removes icon and banner when
present. -/
def delete_channel_thumb (cfg : Config) (h : Handler) (w : World) : World :=
  let thumb := channel_thumb_path cfg h.item_id
  let banner := channel_banner_path cfg h.item_id
  let w1 := if (fsLookup w.fs thumb).isSome then { w with fs := fsRemove w.fs thumb } else w
  if (fsLookup w1.fs banner).isSome then { w1 with fs := fsRemove w1.fs banner } else w1

/-- `ThumbManager.delete_playlist_thumb`. -/
def delete_playlist_thumb (cfg : Config) (h : Handler) (w : World) : World :=
  let thumb_path := playlist_thumb_path cfg h.item_id
  if (fsLookup w.fs thumb_path).isSome then { w with fs := fsRemove w.fs thumb_path }
  else w

/-- `ThumbManager.delete`: dispatch on `item_type`; a kind matching no
branch does nothing. -/
def delete (cfg : Config) (h : Handler) (w : World) : World :=
  if h.item_type = "video" then delete_video_thumb cfg h w
  else if h.item_type = "channel" then delete_channel_thumb cfg h w
  else if h.item_type = "playlist" then delete_playlist_thumb cfg h w
  else w

/-- One `_source` document of the `ta_video` index as consumed by
`ValidatorCallback._validate_videos`. -/
structure VideoDoc where
  youtube_id : String
  vid_thumb_url : Option String
deriving DecidableEq

/-- `ValidatorCallback._validate_videos`: for each document build a fresh
`ThumbManager(youtube_id)` (default `item_type="video"`, `fallback=False`)
and call `download_video_thumb(url, skip_existing=True)`; an exception
aborts the page. -/
def validate_videos (net : Nat → Attempt) (cfg : Config)
    (fsOpen : String → Image) :
    List VideoDoc → World → Except PyError Unit × World
  | [], w => (.ok (), w)
  | v :: rest, w =>
    let handler : Handler := ⟨v.youtube_id, "video", none⟩
    match download_video_thumb net cfg fsOpen handler v.vid_thumb_url true w with
    | (.error e, w1) => (.error e, w1)
    | (.ok _, w1) => validate_videos net cfg fsOpen rest w1

/-! Concrete fixtures used by witnesses and counterexamples. -/

/-- A network where every request raises a `RequestException`. -/
def netFail : Nat → Attempt := fun _ => .netError

/-- A concrete configuration. -/
def cfg0 : Config := ⟨"/cache", "/app"⟩

/-- A concrete `Image.open`, giving every path a 100×100 image. -/
def fsOpen0 : String → Image := fun p => ⟨p, 100, 100⟩

/-- An initial world: empty cache, no requests, no sleeps yet. -/
def w0 : World := ⟨[], 0, []⟩

/-- Running the retry loop from `i = 0` when the next three requests all
raise: three requests are issued, sleeps `1, 2, 9` are performed, and the
sentinel `False` is returned. -/
theorem download_raw_loop_allFail (net : Nat → Attempt) (cfg : Config)
    (fsOpen : String → Image) (h : Handler) (w : World)
    (h0 : net w.fetches = .netError)
    (h1 : net (w.fetches + 1) = .netError)
    (h2 : net (w.fetches + 2) = .netError) :
    download_raw_loop net cfg fsOpen h 0 3 w =
      (.ok none,
        { w with fetches := w.fetches + 3, sleeps := w.sleeps ++ [1, 2, 9] }) := by
  show download_raw_loop net cfg fsOpen h 0 (2 + 1) w = _
  rw [download_raw_loop]
  simp only [h0]
  show download_raw_loop net cfg fsOpen h 1 (1 + 1) _ = _
  rw [download_raw_loop]
  simp only [h1]
  show download_raw_loop net cfg fsOpen h 2 (0 + 1) _ = _
  rw [download_raw_loop]
  simp only [h2]
  show (Except.ok none, _) = _
  refine congrArg _ ?_
  simp [List.append_assoc]

/-- C2: for a non-empty url, when every HTTP attempt raises a network-level
error the fetch issues exactly 3 requests — never more — and returns the
failure sentinel (`False`, here `none`) instead of an image. -/
theorem retry_cap_three_attempts (net : Nat → Attempt) (cfg : Config)
    (fsOpen : String → Image) (h : Handler) (u : String) (w : World)
    (hu : ¬u = "")
    (h0 : net w.fetches = .netError)
    (h1 : net (w.fetches + 1) = .netError)
    (h2 : net (w.fetches + 2) = .netError) :
    download_raw net cfg fsOpen h (some u) w =
      (.ok none,
        { w with fetches := w.fetches + 3, sleeps := w.sleeps ++ [1, 2, 9] }) := by
  rw [download_raw, if_neg (by simp [hu])]
  exact download_raw_loop_allFail net cfg fsOpen h w h0 h1 h2

/-- Witness for `retry_cap_three_attempts` at a concrete input. -/
theorem retry_cap_three_attempts_witness :
    download_raw netFail cfg0 fsOpen0 ⟨"vid1", "video", none⟩
        (some "http://u") w0 = (.ok none, ⟨[], 3, [1, 2, 9]⟩) := by
  have h := retry_cap_three_attempts netFail cfg0 fsOpen0
    ⟨"vid1", "video", none⟩ "http://u" w0 (by decide) rfl rfl rfl
  exact h

/-- C5 counterexample: at a concrete input where every attempt raises a
network error, the sleeps actually performed are `1, 2, 9`, not the claimed
`i^i` sequence `1, 1, 4`. -/
theorem backoff_not_claimed_sequence :
    (download_raw netFail cfg0 fsOpen0 ⟨"vid1", "video", none⟩
        (some "http://u") w0).2.sleeps = [1, 2, 9] ∧
      ¬([1, 2, 9] = [(1 : Nat), 1, 4]) := by
  refine ⟨?_, by decide⟩
  rfl

/-- C5 (amended): when every attempt raises a network-level error, the i-th
retry (0-indexed) sleeps `(i + 1) ^ i` time units — the sequence 1, 2, 9 —
which is monotonically nondecreasing and everywhere ≥ 1 (no busy retry
loop). -/
theorem backoff_curve (net : Nat → Attempt) (cfg : Config)
    (fsOpen : String → Image) (h : Handler) (u : String) (w : World)
    (hu : ¬u = "")
    (h0 : net w.fetches = .netError)
    (h1 : net (w.fetches + 1) = .netError)
    (h2 : net (w.fetches + 2) = .netError) :
    (download_raw net cfg fsOpen h (some u) w).2.sleeps =
      w.sleeps ++ [(0 + 1) ^ 0, (1 + 1) ^ 1, (2 + 1) ^ 2] ∧
    ((0 : Nat) + 1) ^ 0 ≤ ((1 : Nat) + 1) ^ 1 ∧
    ((1 : Nat) + 1) ^ 1 ≤ ((2 : Nat) + 1) ^ 2 ∧
    1 ≤ ((0 : Nat) + 1) ^ 0 := by
  refine ⟨?_, by decide, by decide, by decide⟩
  rw [download_raw, if_neg (by simp [hu])]
  rw [download_raw_loop_allFail net cfg fsOpen h w h0 h1 h2]
  norm_num

/-- Witness for `backoff_curve` at a concrete input. -/
theorem backoff_curve_witness :
    (download_raw netFail cfg0 fsOpen0 ⟨"vid2", "video", none⟩
        (some "http://u") w0).2.sleeps =
      w0.sleeps ++ [(0 + 1) ^ 0, (1 + 1) ^ 1, (2 + 1) ^ 2] :=
  (backoff_curve netFail cfg0 fsOpen0 ⟨"vid2", "video", none⟩ "http://u" w0
    (by decide) rfl rfl rfl).1

/-- C8: an HTTP 404 response, or a response below 400 whose body is not
decodable as an image, makes the fetch return the fallback immediately:
one request issued, no sleep, no retry. -/
theorem short_circuit_404_corrupt (net : Nat → Attempt) (cfg : Config)
    (fsOpen : String → Image) (h : Handler) (u : String) (w : World)
    (hu : ¬u = "") :
    (∀ b, net w.fetches = .response 404 b →
       download_raw net cfg fsOpen h (some u) w =
         ((get_fallback cfg fsOpen h).map some,
           { w with fetches := w.fetches + 1 })) ∧
    (∀ s, net w.fetches = .response s .corrupt → s < 400 →
       download_raw net cfg fsOpen h (some u) w =
         ((get_fallback cfg fsOpen h).map some,
           { w with fetches := w.fetches + 1 })) := by
  constructor
  · intro b hb
    rw [download_raw, if_neg (by simp [hu])]
    show download_raw_loop net cfg fsOpen h 0 (2 + 1) w = _
    rw [download_raw_loop]
    simp only [hb]
    norm_num
  · intro s hs hlt
    rw [download_raw, if_neg (by simp [hu])]
    show download_raw_loop net cfg fsOpen h 0 (2 + 1) w = _
    rw [download_raw_loop]
    simp only [hs]
    simp [hlt]

/-- A network whose single relevant response is a 404. -/
def net404 : Nat → Attempt := fun _ => .response 404 .corrupt

/-- Witness for `short_circuit_404_corrupt` at a concrete input. -/
theorem short_circuit_404_corrupt_witness :
    download_raw net404 cfg0 fsOpen0 ⟨"vid3", "video", none⟩
        (some "http://u") w0 =
      ((get_fallback cfg0 fsOpen0 ⟨"vid3", "video", none⟩).map some,
        { w0 with fetches := w0.fetches + 1 }) :=
  (short_circuit_404_corrupt net404 cfg0 fsOpen0 ⟨"vid3", "video", none⟩
    "http://u" w0 (by decide)).1 .corrupt rfl

/-- C7: a falsy url (`None` or `""`) returns the fallback image with no
network call and no state change; with no explicit fallback each of the
four kinds resolves to its one bundled default, video and playlist sharing
the same file; an explicit fallback path takes precedence for every kind. -/
theorem fallback_policy (net : Nat → Attempt) (cfg : Config)
    (fsOpen : String → Image) (h : Handler) (w : World) :
    download_raw net cfg fsOpen h none w =
      ((get_fallback cfg fsOpen h).map some, w) ∧
    download_raw net cfg fsOpen h (some "") w =
      ((get_fallback cfg fsOpen h).map some, w) ∧
    (h.fallback = none → h.item_type = "video" →
       get_fallback cfg fsOpen h =
         .ok (fsOpen (pjoin cfg.app_root "static/img/default-video-thumb.jpg"))) ∧
    (h.fallback = none → h.item_type = "playlist" →
       get_fallback cfg fsOpen h =
         .ok (fsOpen (pjoin cfg.app_root "static/img/default-video-thumb.jpg"))) ∧
    (h.fallback = none → h.item_type = "icon" →
       get_fallback cfg fsOpen h =
         .ok (fsOpen (pjoin cfg.app_root "static/img/default-channel-icon.jpg"))) ∧
    (h.fallback = none → h.item_type = "banner" →
       get_fallback cfg fsOpen h =
         .ok (fsOpen (pjoin cfg.app_root "static/img/default-channel-banner.jpg"))) ∧
    (∀ fb, h.fallback = some fb → get_fallback cfg fsOpen h = .ok (fsOpen fb)) ∧
    default_map cfg.app_root "video" = default_map cfg.app_root "playlist" := by
  refine ⟨by simp [download_raw], by simp [download_raw], ?_, ?_, ?_, ?_, ?_, ?_⟩
  · intro hfb hk
    simp [get_fallback, hfb, hk, default_map]
  · intro hfb hk
    simp [get_fallback, hfb, hk, default_map]
  · intro hfb hk
    simp [get_fallback, hfb, hk, default_map]
  · intro hfb hk
    simp [get_fallback, hfb, hk, default_map]
  · intro fb hfb
    simp [get_fallback, hfb]
  · simp [default_map]

/-- Witness for `fallback_policy` at a concrete input. -/
theorem fallback_policy_witness :
    get_fallback cfg0 fsOpen0 ⟨"vid4", "video", none⟩ =
      .ok (fsOpen0 (pjoin cfg0.app_root "static/img/default-video-thumb.jpg")) :=
  (fallback_policy netFail cfg0 fsOpen0 ⟨"vid4", "video", none⟩ w0).2.2.1 rfl rfl

/-- C9 counterexample: dispatching `download` or `delete` with the unknown
kind `"bogus"` raises nothing and silently does nothing, refuting the claim
that every kind-taking operation raises on an undefined kind. -/
theorem unknown_kind_dispatch_silent :
    download netFail cfg0 fsOpen0 ⟨"x", "bogus", none⟩ (.single (some "u")) w0 =
      (.ok (), ⟨"x", "bogus", none⟩, w0) ∧
    delete cfg0 ⟨"x", "bogus", none⟩ w0 = w0 := by
  constructor <;> rfl

/-- C9 (amended): only fallback resolution treats an undefined kind as a
fatal programmer error (`KeyError`); the `download` and `delete` dispatchers
match no branch for a kind outside {video, channel, playlist} and silently
do nothing. -/
theorem unknown_kind_behaviour (net : Nat → Attempt) (cfg : Config)
    (fsOpen : String → Image) (h : Handler) (arg : UrlArg) (w : World)
    (hv : ¬h.item_type = "video") (hp : ¬h.item_type = "playlist")
    (hi : ¬h.item_type = "icon") (hb : ¬h.item_type = "banner")
    (hc : ¬h.item_type = "channel") (hfb : h.fallback = none) :
    get_fallback cfg fsOpen h = .error (.keyError h.item_type) ∧
    download net cfg fsOpen h arg w = (.ok (), h, w) ∧
    delete cfg h w = w := by
  refine ⟨?_, ?_, ?_⟩
  · simp [get_fallback, hfb, default_map, hv, hp, hi, hb]
  · simp [download, hv, hc, hp]
  · simp [delete, hv, hc, hp]

/-- Witness for `unknown_kind_behaviour` at a concrete input. -/
theorem unknown_kind_behaviour_witness :
    get_fallback cfg0 fsOpen0 ⟨"y", "gadget", none⟩ =
      .error (.keyError "gadget") ∧
    download netFail cfg0 fsOpen0 ⟨"y", "gadget", none⟩ (.single none) w0 =
      (.ok (), ⟨"y", "gadget", none⟩, w0) ∧
    delete cfg0 ⟨"y", "gadget", none⟩ w0 = w0 :=
  unknown_kind_behaviour netFail cfg0 fsOpen0 ⟨"y", "gadget", none⟩
    (.single none) w0 (by decide) (by decide) (by decide) (by decide)
    (by decide) rfl

/-- C1 (code bug): when the icon fetch exhausts its retries and
`download_raw` returns the sentinel `False`, the caller immediately calls
`.convert` / `.size` on it and raises `AttributeError` instead of treating
it as "no image available": `download_channel_art` aborts before the banner
step (only the icon's 3 requests were issued and no file was written), and
`download_video_thumb` crashes at `img_raw.size`. -/
theorem sentinel_crashes_caller :
    download_channel_art netFail cfg0 fsOpen0 ⟨"chan1", "channel", none⟩
        (some "http://icon", some "http://banner") false w0 =
      (.error (.attributeError "convert"), ⟨"chan1", "icon", none⟩,
        ⟨[], 3, [1, 2, 9]⟩) ∧
    download_video_thumb netFail cfg0 fsOpen0 ⟨"vid5", "video", none⟩
        (some "http://t") false w0 =
      (.error (.attributeError "size"), ⟨[], 3, [1, 2, 9]⟩) := by
  constructor <;> rfl

/-- The icon step always returns the handler with `item_type = "icon"`,
whatever path it takes. -/
theorem channel_thumb_step_handler (net : Nat → Attempt) (cfg : Config)
    (fsOpen : String → Image) (h : Handler) (u : Option String) (sk : Bool)
    (w : World) :
    (channel_thumb_step net cfg fsOpen h u sk w).2.1 =
      { h with item_type := "icon" } := by
  simp only [channel_thumb_step]
  split
  · rfl
  · split <;> rfl

/-- The banner step always returns the handler with `item_type = "banner"`,
whatever path it takes. -/
theorem channel_banner_step_handler (net : Nat → Attempt) (cfg : Config)
    (fsOpen : String → Image) (h : Handler) (u : Option String) (sk : Bool)
    (w : World) :
    (channel_banner_step net cfg fsOpen h u sk w).2.1 =
      { h with item_type := "banner" } := by
  simp only [channel_banner_step]
  split
  · rfl
  · split <;> rfl

/-- C10: `download_channel_art` does not preserve `item_type` — whatever
the initial value, the icon step sets it to `"icon"`, a normal return
leaves it `"banner"`, and a subsequent `download` or `delete` on the same
handler matches no dispatch branch and silently does nothing. -/
theorem channel_art_item_type_mutation (net : Nat → Attempt) (cfg : Config)
    (fsOpen : String → Image) (h : Handler)
    (urls : Option String × Option String) (sk : Bool) (w : World)
    (arg : UrlArg) :
    (channel_thumb_step net cfg fsOpen h urls.1 sk w).2.1.item_type = "icon" ∧
    (∀ r h2 w2,
       download_channel_art net cfg fsOpen h urls sk w = (r, h2, w2) →
       r = .ok () → h2.item_type = "banner") ∧
    (∀ h2 : Handler, h2.item_type = "banner" →
       download net cfg fsOpen h2 arg w = (.ok (), h2, w) ∧
       delete cfg h2 w = w) := by
  refine ⟨?_, ?_, ?_⟩
  · rw [channel_thumb_step_handler]
  · intro r h2 w2 heq hr
    unfold download_channel_art at heq
    rcases hts : channel_thumb_step net cfg fsOpen h urls.1 sk w with ⟨rt, ht, wt⟩
    rw [hts] at heq
    cases rt with
    | error e =>
      simp only at heq
      cases heq
      exact absurd hr (by simp)
    | ok v =>
      simp only at heq
      have hb := channel_banner_step_handler net cfg fsOpen ht urls.2 sk wt
      rw [heq] at hb
      simp only at hb
      rw [hb]
  · intro h2 hk
    constructor
    · simp [download, hk]
    · simp [delete, hk]

/-- A cache already holding both channel-art files for id `c9`. -/
def imgA : Image := ⟨"a", 100, 100⟩

/-- World fixture: both channel files for `c9` already cached. -/
def wCh : World :=
  ⟨[(channel_thumb_path cfg0 "c9", imgA), (channel_banner_path cfg0 "c9", imgA)],
    0, []⟩

/-- Witness for `channel_art_item_type_mutation` at a concrete input. -/
theorem channel_art_item_type_mutation_witness :
    (channel_thumb_step netFail cfg0 fsOpen0 ⟨"c9", "channel", none⟩
        (some "http://i") true wCh).2.1.item_type = "icon" ∧
    (⟨"c9", "banner", none⟩ : Handler).item_type = "banner" ∧
    download netFail cfg0 fsOpen0 ⟨"c9", "banner", none⟩ (.single none) wCh =
      (.ok (), ⟨"c9", "banner", none⟩, wCh) ∧
    delete cfg0 ⟨"c9", "banner", none⟩ wCh = wCh :=
  ⟨(channel_art_item_type_mutation netFail cfg0 fsOpen0 ⟨"c9", "channel", none⟩
      (some "http://i", some "http://b") true wCh (.single none)).1,
   (channel_art_item_type_mutation netFail cfg0 fsOpen0 ⟨"c9", "channel", none⟩
      (some "http://i", some "http://b") true wCh (.single none)).2.1
      (.ok ()) ⟨"c9", "banner", none⟩ wCh (by rfl) rfl ▸ rfl,
   ((channel_art_item_type_mutation netFail cfg0 fsOpen0 ⟨"c9", "channel", none⟩
      (some "http://i", some "http://b") true wCh (.single none)).2.2
      ⟨"c9", "banner", none⟩ rfl).1,
   ((channel_art_item_type_mutation netFail cfg0 fsOpen0 ⟨"c9", "channel", none⟩
      (some "http://i", some "http://b") true wCh (.single none)).2.2
      ⟨"c9", "banner", none⟩ rfl).2⟩

/-- The retry loop never touches the cache filesystem. -/
theorem download_raw_loop_fs (net : Nat → Attempt) (cfg : Config)
    (fsOpen : String → Image) (h : Handler) :
    ∀ fuel i w, (download_raw_loop net cfg fsOpen h i fuel w).2.fs = w.fs := by
  intro fuel
  induction fuel with
  | zero => intro i w; rfl
  | succ n ih =>
    intro i w
    rw [download_raw_loop]
    cases hnet : net w.fetches with
    | netError =>
      simp only [hnet]
      exact ih (i + 1) _
    | response s b =>
      simp only [hnet]
      split
      · cases b <;> rfl
      · split
        · rfl
        · exact ih (i + 1) _

/-- `download_raw` never touches the cache filesystem. -/
theorem download_raw_fs (net : Nat → Attempt) (cfg : Config)
    (fsOpen : String → Image) (h : Handler) (url : Option String) (w : World) :
    (download_raw net cfg fsOpen h url w).2.fs = w.fs := by
  rw [download_raw]
  split
  · rfl
  · exact download_raw_loop_fs net cfg fsOpen h 3 0 w

/-- Prepending a cache entry preserves presence of every path. -/
theorem fsLookup_cons_isSome (fs : List (String × Image)) (p q : String)
    (img : Image) (hp : (fsLookup fs p).isSome = true) :
    (fsLookup ((q, img) :: fs) p).isSome = true := by
  simp only [fsLookup]
  split
  · rfl
  · exact hp

/-- `download_video_thumb` only adds cache entries: any path present before
is present after. -/
theorem download_video_thumb_preserves (net : Nat → Attempt) (cfg : Config)
    (fsOpen : String → Image) (h : Handler) (url : Option String) (sk : Bool)
    (w : World) (p : String) (hp : (fsLookup w.fs p).isSome = true) :
    (fsLookup (download_video_thumb net cfg fsOpen h url sk w).2.fs p).isSome
      = true := by
  by_cases hc : (sk && (fsLookup w.fs (vid_thumb_path cfg h true)).isSome) = true
  · simp only [download_video_thumb]
    rw [if_pos hc]
    exact hp
  · rcases hdr : download_raw net cfg fsOpen h url w with ⟨res, w1⟩
    have hfs : w1.fs = w.fs := by
      have hq := download_raw_fs net cfg fsOpen h url w
      rw [hdr] at hq
      exact hq
    simp only [download_video_thumb]
    rw [if_neg hc, hdr]
    cases res with
    | error e =>
      show (fsLookup w1.fs p).isSome = true
      rw [hfs]
      exact hp
    | ok v =>
      cases v with
      | none =>
        show (fsLookup w1.fs p).isSome = true
        rw [hfs]
        exact hp
      | some img =>
        refine fsLookup_cons_isSome w1.fs p _ _ ?_
        rw [hfs]
        exact hp

/-- A successful `download_video_thumb` leaves the target path present. -/
theorem download_video_thumb_ensures (net : Nat → Attempt) (cfg : Config)
    (fsOpen : String → Image) (h : Handler) (url : Option String) (sk : Bool)
    (w : World)
    (hok : (download_video_thumb net cfg fsOpen h url sk w).1 = .ok ()) :
    (fsLookup (download_video_thumb net cfg fsOpen h url sk w).2.fs
      (vid_thumb_path cfg h true)).isSome = true := by
  by_cases hc : (sk && (fsLookup w.fs (vid_thumb_path cfg h true)).isSome) = true
  · simp only [download_video_thumb]
    rw [if_pos hc]
    simp only [Bool.and_eq_true] at hc
    exact hc.2
  · simp only [download_video_thumb] at hok ⊢
    rw [if_neg hc] at hok ⊢
    rcases hdr : download_raw net cfg fsOpen h url w with ⟨res, w1⟩
    rw [hdr] at hok
    cases res with
    | error e => exact Except.noConfusion hok
    | ok v =>
      cases v with
      | none => exact Except.noConfusion hok
      | some img =>
        show (fsLookup ((vid_thumb_path cfg h true, _) :: w1.fs)
          (vid_thumb_path cfg h true)).isSome = true
        simp [fsLookup]

/-- A validator page run only adds cache entries. -/
theorem validate_videos_preserves (net : Nat → Attempt) (cfg : Config)
    (fsOpen : String → Image) (source : List VideoDoc) (w : World) (p : String)
    (hp : (fsLookup w.fs p).isSome = true) :
    (fsLookup (validate_videos net cfg fsOpen source w).2.fs p).isSome
      = true := by
  induction source generalizing w with
  | nil => exact hp
  | cons vd rest ih =>
    simp only [validate_videos]
    rcases hdvt : download_video_thumb net cfg fsOpen
      ⟨vd.youtube_id, "video", none⟩ vd.vid_thumb_url true w with ⟨r, wmid⟩
    have hw1 : (fsLookup wmid.fs p).isSome = true := by
      have hq := download_video_thumb_preserves net cfg fsOpen
        ⟨vd.youtube_id, "video", none⟩ vd.vid_thumb_url true w p hp
      rw [hdvt] at hq
      exact hq
    cases r with
    | error e => exact hw1
    | ok u => exact ih wmid hw1

/-- After a successful validator page run every document's thumbnail path
is present in the cache. -/
theorem validate_videos_establishes (net : Nat → Attempt) (cfg : Config)
    (fsOpen : String → Image) (source : List VideoDoc) (w w1 : World)
    (hrun : validate_videos net cfg fsOpen source w = (.ok (), w1)) :
    ∀ v ∈ source,
      (fsLookup w1.fs
        (vid_thumb_path cfg ⟨v.youtube_id, "video", none⟩ true)).isSome
        = true := by
  induction source generalizing w with
  | nil => intro v hv; cases hv
  | cons vd rest ih =>
    intro v hv
    simp only [validate_videos] at hrun
    rcases hdvt : download_video_thumb net cfg fsOpen
      ⟨vd.youtube_id, "video", none⟩ vd.vid_thumb_url true w with ⟨r, wmid⟩
    rw [hdvt] at hrun
    cases r with
    | error e => simp at hrun
    | ok u =>
      have hrun2 : validate_videos net cfg fsOpen rest wmid = (.ok (), w1) := hrun
      cases hv with
      | head =>
        have h1 := download_video_thumb_ensures net cfg fsOpen
          ⟨vd.youtube_id, "video", none⟩ vd.vid_thumb_url true w
          (by rw [hdvt])
        rw [hdvt] at h1
        have h2 := validate_videos_preserves net cfg fsOpen rest wmid _ h1
        rw [hrun2] at h2
        exact h2
      | tail _ hmem => exact ih wmid hrun2 v hmem

/-- When every document's thumbnail path is already cached, a validator
page run issues no request and leaves the world untouched. -/
theorem validate_videos_noop (net : Nat → Attempt) (cfg : Config)
    (fsOpen : String → Image) (source : List VideoDoc) (w : World)
    (hall : ∀ v ∈ source,
      (fsLookup w.fs
        (vid_thumb_path cfg ⟨v.youtube_id, "video", none⟩ true)).isSome
        = true) :
    validate_videos net cfg fsOpen source w = (.ok (), w) := by
  induction source with
  | nil => rfl
  | cons vd rest ih =>
    simp only [validate_videos]
    have hvd := hall vd (List.mem_cons_self vd rest)
    have hskip : download_video_thumb net cfg fsOpen
        ⟨vd.youtube_id, "video", none⟩ vd.vid_thumb_url true w = (.ok (), w) := by
      simp [download_video_thumb, hvd]
    rw [hskip]
    exact ih (fun v hv => hall v (List.mem_cons_of_mem vd hv))

/-- One `_source` document of the `ta_channel` index as consumed by
`ValidatorCallback._validate_channels`. -/
structure ChannelDoc where
  channel_id : String
  channel_thumb_url : Option String
  channel_banner_url : Option String
deriving DecidableEq

/-- One `_source` document of the `ta_playlist` index as consumed by
`ValidatorCallback._validate_playlists`. -/
structure PlaylistDoc where
  playlist_id : String
  playlist_thumbnail : Option String
deriving DecidableEq

/-- `ValidatorCallback._validate_channels`: fresh `ThumbManager(channel_id)`
(default `item_type="video"`) per document, then
`download_channel_art(urls, skip_existing=True)`. -/
def validate_channels (net : Nat → Attempt) (cfg : Config)
    (fsOpen : String → Image) :
    List ChannelDoc → World → Except PyError Unit × World
  | [], w => (.ok (), w)
  | d :: rest, w =>
    match download_channel_art net cfg fsOpen ⟨d.channel_id, "video", none⟩
        (d.channel_thumb_url, d.channel_banner_url) true w with
    | (.error e, _, w1) => (.error e, w1)
    | (.ok _, _, w1) => validate_channels net cfg fsOpen rest w1

/-- `ValidatorCallback._validate_playlists`: fresh
`ThumbManager(playlist_id)` per document, then
`download_playlist_thumb(url, skip_existing=True)`. -/
def validate_playlists (net : Nat → Attempt) (cfg : Config)
    (fsOpen : String → Image) :
    List PlaylistDoc → World → Except PyError Unit × World
  | [], w => (.ok (), w)
  | d :: rest, w =>
    match download_playlist_thumb net cfg fsOpen
        ⟨d.playlist_id, "video", none⟩ d.playlist_thumbnail true w with
    | (.error e, w1) => (.error e, w1)
    | (.ok _, w1) => validate_playlists net cfg fsOpen rest w1

/-- The icon step only adds cache entries. -/
theorem channel_thumb_step_fs_preserves (net : Nat → Attempt) (cfg : Config)
    (fsOpen : String → Image) (h : Handler) (u : Option String) (sk : Bool)
    (w : World) (p : String) (hp : (fsLookup w.fs p).isSome = true) :
    (fsLookup (channel_thumb_step net cfg fsOpen h u sk w).2.2.fs p).isSome
      = true := by
  by_cases hc : (sk &&
      (fsLookup w.fs (channel_thumb_path cfg h.item_id)).isSome) = true
  · simp only [channel_thumb_step]
    rw [if_pos hc]
    exact hp
  · rcases hdr : download_raw net cfg fsOpen { h with item_type := "icon" } u w
      with ⟨res, w1⟩
    have hfs : w1.fs = w.fs := by
      have hq := download_raw_fs net cfg fsOpen { h with item_type := "icon" } u w
      rw [hdr] at hq
      exact hq
    simp only [channel_thumb_step]
    rw [if_neg hc, hdr]
    cases res with
    | error e =>
      show (fsLookup w1.fs p).isSome = true
      rw [hfs]
      exact hp
    | ok v =>
      cases v with
      | none =>
        show (fsLookup w1.fs p).isSome = true
        rw [hfs]
        exact hp
      | some img =>
        refine fsLookup_cons_isSome w1.fs p _ _ ?_
        rw [hfs]
        exact hp

/-- The banner step only adds cache entries. -/
theorem channel_banner_step_fs_preserves (net : Nat → Attempt) (cfg : Config)
    (fsOpen : String → Image) (h : Handler) (u : Option String) (sk : Bool)
    (w : World) (p : String) (hp : (fsLookup w.fs p).isSome = true) :
    (fsLookup (channel_banner_step net cfg fsOpen h u sk w).2.2.fs p).isSome
      = true := by
  by_cases hc : (sk &&
      (fsLookup w.fs (channel_banner_path cfg h.item_id)).isSome) = true
  · simp only [channel_banner_step]
    rw [if_pos hc]
    exact hp
  · rcases hdr : download_raw net cfg fsOpen { h with item_type := "banner" } u w
      with ⟨res, w1⟩
    have hfs : w1.fs = w.fs := by
      have hq := download_raw_fs net cfg fsOpen { h with item_type := "banner" } u w
      rw [hdr] at hq
      exact hq
    simp only [channel_banner_step]
    rw [if_neg hc, hdr]
    cases res with
    | error e =>
      show (fsLookup w1.fs p).isSome = true
      rw [hfs]
      exact hp
    | ok v =>
      cases v with
      | none =>
        show (fsLookup w1.fs p).isSome = true
        rw [hfs]
        exact hp
      | some img =>
        refine fsLookup_cons_isSome w1.fs p _ _ ?_
        rw [hfs]
        exact hp

/-- A successful icon step leaves the icon path present. -/
theorem channel_thumb_step_ensures (net : Nat → Attempt) (cfg : Config)
    (fsOpen : String → Image) (h : Handler) (u : Option String) (sk : Bool)
    (w : World)
    (hok : (channel_thumb_step net cfg fsOpen h u sk w).1 = .ok ()) :
    (fsLookup (channel_thumb_step net cfg fsOpen h u sk w).2.2.fs
      (channel_thumb_path cfg h.item_id)).isSome = true := by
  by_cases hc : (sk &&
      (fsLookup w.fs (channel_thumb_path cfg h.item_id)).isSome) = true
  · simp only [channel_thumb_step]
    rw [if_pos hc]
    simp only [Bool.and_eq_true] at hc
    exact hc.2
  · simp only [channel_thumb_step] at hok ⊢
    rw [if_neg hc] at hok ⊢
    rcases hdr : download_raw net cfg fsOpen { h with item_type := "icon" } u w
      with ⟨res, w1⟩
    rw [hdr] at hok
    cases res with
    | error e => exact Except.noConfusion hok
    | ok v =>
      cases v with
      | none => exact Except.noConfusion hok
      | some img =>
        show (fsLookup ((channel_thumb_path cfg h.item_id, _) :: w1.fs)
          (channel_thumb_path cfg h.item_id)).isSome = true
        simp [fsLookup]

/-- A successful banner step leaves the banner path present. -/
theorem channel_banner_step_ensures (net : Nat → Attempt) (cfg : Config)
    (fsOpen : String → Image) (h : Handler) (u : Option String) (sk : Bool)
    (w : World)
    (hok : (channel_banner_step net cfg fsOpen h u sk w).1 = .ok ()) :
    (fsLookup (channel_banner_step net cfg fsOpen h u sk w).2.2.fs
      (channel_banner_path cfg h.item_id)).isSome = true := by
  by_cases hc : (sk &&
      (fsLookup w.fs (channel_banner_path cfg h.item_id)).isSome) = true
  · simp only [channel_banner_step]
    rw [if_pos hc]
    simp only [Bool.and_eq_true] at hc
    exact hc.2
  · simp only [channel_banner_step] at hok ⊢
    rw [if_neg hc] at hok ⊢
    rcases hdr : download_raw net cfg fsOpen { h with item_type := "banner" } u w
      with ⟨res, w1⟩
    rw [hdr] at hok
    cases res with
    | error e => exact Except.noConfusion hok
    | ok v =>
      cases v with
      | none => exact Except.noConfusion hok
      | some img =>
        show (fsLookup ((channel_banner_path cfg h.item_id, _) :: w1.fs)
          (channel_banner_path cfg h.item_id)).isSome = true
        simp [fsLookup]

/-- `download_channel_art` only adds cache entries. -/
theorem download_channel_art_fs_preserves (net : Nat → Attempt) (cfg : Config)
    (fsOpen : String → Image) (h : Handler)
    (urls : Option String × Option String) (sk : Bool) (w : World) (p : String)
    (hp : (fsLookup w.fs p).isSome = true) :
    (fsLookup (download_channel_art net cfg fsOpen h urls sk w).2.2.fs p).isSome
      = true := by
  simp only [download_channel_art]
  rcases hts : channel_thumb_step net cfg fsOpen h urls.1 sk w with ⟨rt, ht, wt⟩
  have hwt : (fsLookup wt.fs p).isSome = true := by
    have hq := channel_thumb_step_fs_preserves net cfg fsOpen h urls.1 sk w p hp
    rw [hts] at hq
    exact hq
  cases rt with
  | error e => exact hwt
  | ok v =>
    exact channel_banner_step_fs_preserves net cfg fsOpen ht urls.2 sk wt p hwt

/-- A successful `download_channel_art` leaves both channel paths present. -/
theorem download_channel_art_ensures (net : Nat → Attempt) (cfg : Config)
    (fsOpen : String → Image) (h : Handler)
    (urls : Option String × Option String) (sk : Bool) (w : World)
    (hok : (download_channel_art net cfg fsOpen h urls sk w).1 = .ok ()) :
    (fsLookup (download_channel_art net cfg fsOpen h urls sk w).2.2.fs
      (channel_thumb_path cfg h.item_id)).isSome = true ∧
    (fsLookup (download_channel_art net cfg fsOpen h urls sk w).2.2.fs
      (channel_banner_path cfg h.item_id)).isSome = true := by
  simp only [download_channel_art] at hok ⊢
  rcases hts : channel_thumb_step net cfg fsOpen h urls.1 sk w with ⟨rt, ht, wt⟩
  rw [hts] at hok
  cases rt with
  | error e => exact Except.noConfusion hok
  | ok v =>
    have hok2 : (channel_banner_step net cfg fsOpen ht urls.2 sk wt).1 = .ok () := hok
    have h1 : (fsLookup wt.fs (channel_thumb_path cfg h.item_id)).isSome = true := by
      have hq := channel_thumb_step_ensures net cfg fsOpen h urls.1 sk w (by rw [hts])
      rw [hts] at hq
      exact hq
    have hid : ht.item_id = h.item_id := by
      have hh := channel_thumb_step_handler net cfg fsOpen h urls.1 sk w
      rw [hts] at hh
      have hh2 : ht = { h with item_type := "icon" } := hh
      rw [hh2]
    constructor
    · exact channel_banner_step_fs_preserves net cfg fsOpen ht urls.2 sk wt _ h1
    · have hq := channel_banner_step_ensures net cfg fsOpen ht urls.2 sk wt hok2
      rw [hid] at hq
      exact hq

/-- With both channel files cached, `download_channel_art` with
`skip_existing` is a no-op on the world and ends with `item_type = "banner"`. -/
theorem download_channel_art_skip (net : Nat → Attempt) (cfg : Config)
    (fsOpen : String → Image) (h : Handler)
    (urls : Option String × Option String) (w : World)
    (hi : (fsLookup w.fs (channel_thumb_path cfg h.item_id)).isSome = true)
    (hb : (fsLookup w.fs (channel_banner_path cfg h.item_id)).isSome = true) :
    download_channel_art net cfg fsOpen h urls true w =
      (.ok (), { h with item_type := "banner" }, w) := by
  simp only [download_channel_art]
  have h1 : channel_thumb_step net cfg fsOpen h urls.1 true w =
      (.ok (), { h with item_type := "icon" }, w) := by
    simp [channel_thumb_step, hi]
  rw [h1]
  simp [channel_banner_step, hb]

/-- `download_playlist_thumb` only adds cache entries. -/
theorem download_playlist_thumb_fs_preserves (net : Nat → Attempt)
    (cfg : Config) (fsOpen : String → Image) (h : Handler)
    (url : Option String) (sk : Bool) (w : World) (p : String)
    (hp : (fsLookup w.fs p).isSome = true) :
    (fsLookup (download_playlist_thumb net cfg fsOpen h url sk w).2.fs p).isSome
      = true := by
  by_cases hc : (sk &&
      (fsLookup w.fs (playlist_thumb_path cfg h.item_id)).isSome) = true
  · simp only [download_playlist_thumb]
    rw [if_pos hc]
    exact hp
  · rcases hdr : download_raw net cfg fsOpen h url w with ⟨res, w1⟩
    have hfs : w1.fs = w.fs := by
      have hq := download_raw_fs net cfg fsOpen h url w
      rw [hdr] at hq
      exact hq
    simp only [download_playlist_thumb]
    rw [if_neg hc, hdr]
    cases res with
    | error e =>
      show (fsLookup w1.fs p).isSome = true
      rw [hfs]
      exact hp
    | ok v =>
      cases v with
      | none =>
        show (fsLookup w1.fs p).isSome = true
        rw [hfs]
        exact hp
      | some img =>
        refine fsLookup_cons_isSome w1.fs p _ _ ?_
        rw [hfs]
        exact hp

/-- A successful `download_playlist_thumb` leaves the target path present. -/
theorem download_playlist_thumb_ensures (net : Nat → Attempt) (cfg : Config)
    (fsOpen : String → Image) (h : Handler) (url : Option String) (sk : Bool)
    (w : World)
    (hok : (download_playlist_thumb net cfg fsOpen h url sk w).1 = .ok ()) :
    (fsLookup (download_playlist_thumb net cfg fsOpen h url sk w).2.fs
      (playlist_thumb_path cfg h.item_id)).isSome = true := by
  by_cases hc : (sk &&
      (fsLookup w.fs (playlist_thumb_path cfg h.item_id)).isSome) = true
  · simp only [download_playlist_thumb]
    rw [if_pos hc]
    simp only [Bool.and_eq_true] at hc
    exact hc.2
  · simp only [download_playlist_thumb] at hok ⊢
    rw [if_neg hc] at hok ⊢
    rcases hdr : download_raw net cfg fsOpen h url w with ⟨res, w1⟩
    rw [hdr] at hok
    cases res with
    | error e => exact Except.noConfusion hok
    | ok v =>
      cases v with
      | none => exact Except.noConfusion hok
      | some img =>
        show (fsLookup ((playlist_thumb_path cfg h.item_id, _) :: w1.fs)
          (playlist_thumb_path cfg h.item_id)).isSome = true
        simp [fsLookup]

/-- A channel validator page run only adds cache entries. -/
theorem validate_channels_preserves (net : Nat → Attempt) (cfg : Config)
    (fsOpen : String → Image) (source : List ChannelDoc) (w : World)
    (p : String) (hp : (fsLookup w.fs p).isSome = true) :
    (fsLookup (validate_channels net cfg fsOpen source w).2.fs p).isSome
      = true := by
  induction source generalizing w with
  | nil => exact hp
  | cons d rest ih =>
    simp only [validate_channels]
    rcases hart : download_channel_art net cfg fsOpen ⟨d.channel_id, "video", none⟩
      (d.channel_thumb_url, d.channel_banner_url) true w with ⟨r, h1, w1⟩
    have hw1 : (fsLookup w1.fs p).isSome = true := by
      have hq := download_channel_art_fs_preserves net cfg fsOpen
        ⟨d.channel_id, "video", none⟩ (d.channel_thumb_url, d.channel_banner_url)
        true w p hp
      rw [hart] at hq
      exact hq
    cases r with
    | error e => exact hw1
    | ok u => exact ih w1 hw1

/-- After a successful channel validator page run every document's icon and
banner paths are present. -/
theorem validate_channels_establishes (net : Nat → Attempt) (cfg : Config)
    (fsOpen : String → Image) (source : List ChannelDoc) (w w1 : World)
    (hrun : validate_channels net cfg fsOpen source w = (.ok (), w1)) :
    ∀ d ∈ source,
      (fsLookup w1.fs (channel_thumb_path cfg d.channel_id)).isSome = true ∧
      (fsLookup w1.fs (channel_banner_path cfg d.channel_id)).isSome = true := by
  induction source generalizing w with
  | nil => intro d hd; cases hd
  | cons d0 rest ih =>
    intro d hd
    simp only [validate_channels] at hrun
    rcases hart : download_channel_art net cfg fsOpen ⟨d0.channel_id, "video", none⟩
      (d0.channel_thumb_url, d0.channel_banner_url) true w with ⟨r, hmid, wmid⟩
    rw [hart] at hrun
    cases r with
    | error e => simp at hrun
    | ok u =>
      have hrun2 : validate_channels net cfg fsOpen rest wmid = (.ok (), w1) := hrun
      cases hd with
      | head =>
        have h1 := download_channel_art_ensures net cfg fsOpen
          ⟨d0.channel_id, "video", none⟩
          (d0.channel_thumb_url, d0.channel_banner_url) true w (by rw [hart])
        rw [hart] at h1
        constructor
        · have h2 := validate_channels_preserves net cfg fsOpen rest wmid _ h1.1
          rw [hrun2] at h2
          exact h2
        · have h2 := validate_channels_preserves net cfg fsOpen rest wmid _ h1.2
          rw [hrun2] at h2
          exact h2
      | tail _ hmem => exact ih wmid hrun2 d hmem

/-- When every document's channel files are already cached, a channel
validator page run is a no-op. -/
theorem validate_channels_noop (net : Nat → Attempt) (cfg : Config)
    (fsOpen : String → Image) (source : List ChannelDoc) (w : World)
    (hall : ∀ d ∈ source,
      (fsLookup w.fs (channel_thumb_path cfg d.channel_id)).isSome = true ∧
      (fsLookup w.fs (channel_banner_path cfg d.channel_id)).isSome = true) :
    validate_channels net cfg fsOpen source w = (.ok (), w) := by
  induction source with
  | nil => rfl
  | cons d0 rest ih =>
    simp only [validate_channels]
    have hd0 := hall d0 (List.mem_cons_self d0 rest)
    rw [download_channel_art_skip net cfg fsOpen ⟨d0.channel_id, "video", none⟩
      (d0.channel_thumb_url, d0.channel_banner_url) w hd0.1 hd0.2]
    exact ih (fun d hd => hall d (List.mem_cons_of_mem d0 hd))

/-- A playlist validator page run only adds cache entries. -/
theorem validate_playlists_preserves (net : Nat → Attempt) (cfg : Config)
    (fsOpen : String → Image) (source : List PlaylistDoc) (w : World)
    (p : String) (hp : (fsLookup w.fs p).isSome = true) :
    (fsLookup (validate_playlists net cfg fsOpen source w).2.fs p).isSome
      = true := by
  induction source generalizing w with
  | nil => exact hp
  | cons d rest ih =>
    simp only [validate_playlists]
    rcases hpl : download_playlist_thumb net cfg fsOpen
      ⟨d.playlist_id, "video", none⟩ d.playlist_thumbnail true w with ⟨r, w1⟩
    have hw1 : (fsLookup w1.fs p).isSome = true := by
      have hq := download_playlist_thumb_fs_preserves net cfg fsOpen
        ⟨d.playlist_id, "video", none⟩ d.playlist_thumbnail true w p hp
      rw [hpl] at hq
      exact hq
    cases r with
    | error e => exact hw1
    | ok u => exact ih w1 hw1

/-- After a successful playlist validator page run every document's
thumbnail path is present. -/
theorem validate_playlists_establishes (net : Nat → Attempt) (cfg : Config)
    (fsOpen : String → Image) (source : List PlaylistDoc) (w w1 : World)
    (hrun : validate_playlists net cfg fsOpen source w = (.ok (), w1)) :
    ∀ d ∈ source,
      (fsLookup w1.fs (playlist_thumb_path cfg d.playlist_id)).isSome
        = true := by
  induction source generalizing w with
  | nil => intro d hd; cases hd
  | cons d0 rest ih =>
    intro d hd
    simp only [validate_playlists] at hrun
    rcases hpl : download_playlist_thumb net cfg fsOpen
      ⟨d0.playlist_id, "video", none⟩ d0.playlist_thumbnail true w with ⟨r, wmid⟩
    rw [hpl] at hrun
    cases r with
    | error e => simp at hrun
    | ok u =>
      have hrun2 : validate_playlists net cfg fsOpen rest wmid = (.ok (), w1) := hrun
      cases hd with
      | head =>
        have h1 := download_playlist_thumb_ensures net cfg fsOpen
          ⟨d0.playlist_id, "video", none⟩ d0.playlist_thumbnail true w
          (by rw [hpl])
        rw [hpl] at h1
        have h2 := validate_playlists_preserves net cfg fsOpen rest wmid _ h1
        rw [hrun2] at h2
        exact h2
      | tail _ hmem => exact ih wmid hrun2 d hmem

/-- When every document's playlist thumbnail is already cached, a playlist
validator page run is a no-op. -/
theorem validate_playlists_noop (net : Nat → Attempt) (cfg : Config)
    (fsOpen : String → Image) (source : List PlaylistDoc) (w : World)
    (hall : ∀ d ∈ source,
      (fsLookup w.fs (playlist_thumb_path cfg d.playlist_id)).isSome = true) :
    validate_playlists net cfg fsOpen source w = (.ok (), w) := by
  induction source with
  | nil => rfl
  | cons d0 rest ih =>
    simp only [validate_playlists]
    have hd0 := hall d0 (List.mem_cons_self d0 rest)
    have hskip : download_playlist_thumb net cfg fsOpen
        ⟨d0.playlist_id, "video", none⟩ d0.playlist_thumbnail true w =
        (.ok (), w) := by
      simp [download_playlist_thumb, hd0]
    rw [hskip]
    exact ih (fun d hd => hall d (List.mem_cons_of_mem d0 hd))

/-- C3: with `skip_existing = true` and the target file(s) already cached,
each of the four download operations issues zero requests and leaves the
world (cache bytes included) unchanged; consequently a validator page run
that succeeded once is a complete no-op when run again on the resulting
state. -/
theorem skip_existing_idempotent (net : Nat → Attempt) (cfg : Config)
    (fsOpen : String → Image) (h : Handler) (url : Option String)
    (urls : Option String × Option String) (source : List VideoDoc)
    (sourceC : List ChannelDoc) (sourceP : List PlaylistDoc) (w : World) :
    ((fsLookup w.fs (vid_thumb_path cfg h true)).isSome = true →
       download_video_thumb net cfg fsOpen h url true w = (.ok (), w)) ∧
    ((fsLookup w.fs (channel_thumb_path cfg h.item_id)).isSome = true →
     (fsLookup w.fs (channel_banner_path cfg h.item_id)).isSome = true →
       download_channel_art net cfg fsOpen h urls true w =
         (.ok (), { h with item_type := "banner" }, w)) ∧
    ((fsLookup w.fs (playlist_thumb_path cfg h.item_id)).isSome = true →
       download_playlist_thumb net cfg fsOpen h url true w = (.ok (), w)) ∧
    (∀ w1, validate_videos net cfg fsOpen source w = (.ok (), w1) →
       validate_videos net cfg fsOpen source w1 = (.ok (), w1)) ∧
    (∀ w1, validate_channels net cfg fsOpen sourceC w = (.ok (), w1) →
       validate_channels net cfg fsOpen sourceC w1 = (.ok (), w1)) ∧
    (∀ w1, validate_playlists net cfg fsOpen sourceP w = (.ok (), w1) →
       validate_playlists net cfg fsOpen sourceP w1 = (.ok (), w1)) := by
  refine ⟨?_, ?_, ?_, ?_, ?_, ?_⟩
  · intro hp
    simp [download_video_thumb, hp]
  · intro hi hb
    exact download_channel_art_skip net cfg fsOpen h urls w hi hb
  · intro hp
    simp [download_playlist_thumb, hp]
  · intro w1 hrun
    exact validate_videos_noop net cfg fsOpen source w1
      (validate_videos_establishes net cfg fsOpen source w w1 hrun)
  · intro w1 hrun
    exact validate_channels_noop net cfg fsOpen sourceC w1
      (validate_channels_establishes net cfg fsOpen sourceC w w1 hrun)
  · intro w1 hrun
    exact validate_playlists_noop net cfg fsOpen sourceP w1
      (validate_playlists_establishes net cfg fsOpen sourceP w w1 hrun)

/-- World fixture: one cached file of every kind. -/
def wAll : World :=
  ⟨[(vid_thumb_path cfg0 ⟨"v1", "video", none⟩ true, imgA),
    (channel_thumb_path cfg0 "c1", imgA),
    (channel_banner_path cfg0 "c1", imgA),
    (playlist_thumb_path cfg0 "p1", imgA)], 0, []⟩

/-- Witness for `skip_existing_idempotent` at concrete inputs. -/
theorem skip_existing_idempotent_witness :
    download_video_thumb netFail cfg0 fsOpen0 ⟨"v1", "video", none⟩
        (some "http://u") true wAll = (.ok (), wAll) ∧
    download_channel_art netFail cfg0 fsOpen0 ⟨"c1", "channel", none⟩
        (some "http://i", some "http://b") true wAll =
      (.ok (), ⟨"c1", "banner", none⟩, wAll) ∧
    download_playlist_thumb netFail cfg0 fsOpen0 ⟨"p1", "playlist", none⟩
        (some "http://u") true wAll = (.ok (), wAll) ∧
    validate_videos netFail cfg0 fsOpen0 [⟨"v1", some "http://u"⟩] wAll =
      (.ok (), wAll) ∧
    validate_channels netFail cfg0 fsOpen0
      [⟨"c1", some "http://i", some "http://b"⟩] wAll = (.ok (), wAll) :=
  ⟨(skip_existing_idempotent netFail cfg0 fsOpen0 ⟨"v1", "video", none⟩
      (some "http://u") (some "http://i", some "http://b") [] [] [] wAll).1
      (by rfl),
   (skip_existing_idempotent netFail cfg0 fsOpen0 ⟨"c1", "channel", none⟩
      (some "http://u") (some "http://i", some "http://b") [] [] [] wAll).2.1
      (by rfl) (by rfl),
   (skip_existing_idempotent netFail cfg0 fsOpen0 ⟨"p1", "playlist", none⟩
      (some "http://u") (some "http://i", some "http://b") [] [] [] wAll).2.2.1
      (by rfl),
   (skip_existing_idempotent netFail cfg0 fsOpen0 ⟨"v1", "video", none⟩
      (some "http://u") (some "http://i", some "http://b")
      [⟨"v1", some "http://u"⟩] [] [] wAll).2.2.2.1 wAll (by rfl),
   (skip_existing_idempotent netFail cfg0 fsOpen0 ⟨"v1", "video", none⟩
      (some "http://u") (some "http://i", some "http://b") []
      [⟨"c1", some "http://i", some "http://b"⟩] [] wAll).2.2.2.2.1 wAll
      (by rfl)⟩

/-- Python's round is within half a unit of its argument. -/
theorem pyRound_close (q : ℚ) : |(pyRound q : ℚ) - q| ≤ 1 / 2 := by
  have h0 : (⌊q⌋ : ℚ) ≤ q := Int.floor_le q
  have h1 : q < ⌊q⌋ + 1 := Int.lt_floor_add_one q
  unfold pyRound
  split
  · next hlt =>
    rw [abs_le]
    constructor <;> linarith
  · next hge =>
    split
    · next hgt =>
      rw [abs_le]
      push_cast
      constructor <;> linarith
    · next hle =>
      have htie : q - ⌊q⌋ = 1 / 2 := le_antisymm (not_lt.mp hle) (not_lt.mp hge)
      split
      · rw [abs_le]
        constructor <;> linarith
      · rw [abs_le]
        push_cast
        constructor <;> linarith

/-- Python's round is the identity on integers. -/
theorem pyRound_intCast (n : ℤ) : pyRound (n : ℚ) = n := by
  unfold pyRound
  rw [Int.floor_intCast]
  norm_num

/-- Python's round of zero. -/
theorem pyRound_zero : pyRound 0 = 0 := by
  have := pyRound_intCast 0
  simpa using this

/-- A first attempt answering below 400 with a decodable body returns that
image after a single request. -/
theorem download_raw_success (net : Nat → Attempt) (cfg : Config)
    (fsOpen : String → Image) (h : Handler) (u : String) (w : World)
    (hu : ¬u = "") (img : Image) (s : Nat)
    (hnet : net w.fetches = .response s (.image img)) (hs : s < 400) :
    download_raw net cfg fsOpen h (some u) w =
      (.ok (some img), { w with fetches := w.fetches + 1 }) := by
  rw [download_raw, if_neg (by simp [hu])]
  show download_raw_loop net cfg fsOpen h 0 (2 + 1) w = _
  rw [download_raw_loop]
  simp only [hnet]
  simp [hs]

/-- The rounded center-crop height is within one pixel of `width * 9/16`,
so 16 times it is within 16 of `9 * width`. -/
theorem crop_sixteen_nine (ww hh : ℤ) :
    |16 * (pyRound ((hh : ℚ) - ((hh : ℚ) - (ww : ℚ) * 9 / 16) / 2)
         - pyRound (((hh : ℚ) - (ww : ℚ) * 9 / 16) / 2)) - 9 * ww| ≤ 16 := by
  have k1 := pyRound_close ((hh : ℚ) - ((hh : ℚ) - (ww : ℚ) * 9 / 16) / 2)
  have k2 := pyRound_close (((hh : ℚ) - (ww : ℚ) * 9 / 16) / 2)
  have hq : |16 * ((pyRound ((hh : ℚ) - ((hh : ℚ) - (ww : ℚ) * 9 / 16) / 2) : ℚ)
      - (pyRound (((hh : ℚ) - (ww : ℚ) * 9 / 16) / 2) : ℚ)) - 9 * (ww : ℚ)| ≤ 16 := by
    rw [abs_le] at k1 k2 ⊢
    constructor <;> linarith
  exact_mod_cast hq

/-- C4: when the fetch succeeds, the saved image is unchanged if the source
ratio is exactly 16:9, and otherwise is the vertical center-crop with
`new_height = width * 9/16` and `offset = (height - new_height)/2` taken
off top and bottom, whose persisted dimensions satisfy
`|16·height' - 9·width| ≤ 16` — the 16:9 ratio up to rounding. -/
theorem aspect_ratio_correction (net : Nat → Attempt) (cfg : Config)
    (fsOpen : String → Image) (h : Handler) (u : String) (img : Image)
    (w : World) (hu : ¬u = "")
    (hnet : net w.fetches = .response 200 (.image img)) :
    ∃ img2,
      download_video_thumb net cfg fsOpen h (some u) false w =
        (.ok (), { w with
            fetches := w.fetches + 1,
            fs := (vid_thumb_path cfg h true, img2) :: w.fs }) ∧
      ((img.width : ℚ) / (img.height : ℚ) = 16 / 9 → img2 = img) ∧
      (¬(img.width : ℚ) / (img.height : ℚ) = 16 / 9 →
        img2 = crop img 0 (((img.height : ℚ) - (img.width : ℚ) * 9 / 16) / 2)
            (img.width : ℚ)
            ((img.height : ℚ) - ((img.height : ℚ) - (img.width : ℚ) * 9 / 16) / 2) ∧
        img2.width = img.width ∧
        |16 * img2.height - 9 * img.width| ≤ 16) := by
  have hdl := download_raw_success net cfg fsOpen h u w hu img 200 hnet (by norm_num)
  have harg : (img.width : ℚ) / 16 * 9 = (img.width : ℚ) * 9 / 16 := by ring
  by_cases hr : (img.width : ℚ) / (img.height : ℚ) = 16 / 9
  · refine ⟨img, ?_, fun _ => rfl, fun hc => absurd hr hc⟩
    simp only [download_video_thumb]
    rw [if_neg (by simp)]
    rw [hdl]
    simp [hr]
  · refine ⟨crop img 0 (((img.height : ℚ) - (img.width : ℚ) * 9 / 16) / 2)
        (img.width : ℚ)
        ((img.height : ℚ) - ((img.height : ℚ) - (img.width : ℚ) * 9 / 16) / 2),
      ?_, fun hc => absurd hc hr, fun _ => ⟨rfl, ?_, ?_⟩⟩
    · simp only [download_video_thumb]
      rw [if_neg (by simp)]
      rw [hdl]
      have hbody : (if ¬(img.width : ℚ) / (img.height : ℚ) = 16 / 9 then
            crop img 0 (((img.height : ℚ) - (img.width : ℚ) / 16 * 9) / 2)
              (img.width : ℚ)
              ((img.height : ℚ) - ((img.height : ℚ) - (img.width : ℚ) / 16 * 9) / 2)
          else img) =
          crop img 0 (((img.height : ℚ) - (img.width : ℚ) * 9 / 16) / 2)
            (img.width : ℚ)
            ((img.height : ℚ) - ((img.height : ℚ) - (img.width : ℚ) * 9 / 16) / 2) := by
        rw [if_pos hr, harg]
      show (Except.ok (),
          ({ fs := (vid_thumb_path cfg h true,
              if ¬(img.width : ℚ) / (img.height : ℚ) = 16 / 9 then
                crop img 0 (((img.height : ℚ) - (img.width : ℚ) / 16 * 9) / 2)
                  (img.width : ℚ)
                  ((img.height : ℚ) -
                    ((img.height : ℚ) - (img.width : ℚ) / 16 * 9) / 2)
              else img) :: w.fs,
             fetches := w.fetches + 1,
             sleeps := w.sleeps } : World)) = _
      rw [hbody]
    · show pyRound (img.width : ℚ) - pyRound 0 = img.width
      rw [pyRound_intCast, pyRound_zero, sub_zero]
    · exact crop_sixteen_nine img.width img.height

/-- A 1000×2000 source image (not 16:9), as in the spec scenario. -/
def img1000 : Image := ⟨"http://t", 1000, 2000⟩

/-- A network answering 200 with the 1000×2000 image. -/
def net1000 : Nat → Attempt := fun _ => .response 200 (.image img1000)

/-- Witness for `aspect_ratio_correction` at the 1000×2000 scenario. -/
theorem aspect_ratio_correction_witness :
    ∃ img2,
      download_video_thumb net1000 cfg0 fsOpen0 ⟨"v4", "video", none⟩
          (some "http://t") false w0 =
        (.ok (), { w0 with
            fetches := w0.fetches + 1,
            fs := (vid_thumb_path cfg0 ⟨"v4", "video", none⟩ true, img2)
              :: w0.fs }) ∧
      ((img1000.width : ℚ) / (img1000.height : ℚ) = 16 / 9 → img2 = img1000) ∧
      (¬(img1000.width : ℚ) / (img1000.height : ℚ) = 16 / 9 →
        img2 = crop img1000 0
            (((img1000.height : ℚ) - (img1000.width : ℚ) * 9 / 16) / 2)
            (img1000.width : ℚ)
            ((img1000.height : ℚ) -
              ((img1000.height : ℚ) - (img1000.width : ℚ) * 9 / 16) / 2) ∧
        img2.width = img1000.width ∧
        |16 * img2.height - 9 * img1000.width| ≤ 16) :=
  aspect_ratio_correction net1000 cfg0 fsOpen0 ⟨"v4", "video", none⟩
    "http://t" img1000 w0 (by decide) rfl

/-- C6: the cache path functions are pure functions of `(entity_id, kind)`
(deterministic, independent of the other handler fields) and produce the
documented layout: `videos/<lower(id[0])>/<id>.jpg` (sharded by the
lowercased first character), `channels/<id>_thumb.jpg`,
`channels/<id>_banner.jpg`, `playlists/<id>.jpg`, prefixed with the cache
root where absolute. -/
theorem cache_path_layout (cfg : Config) (h : Handler) (c : Char)
    (rest : List Char) (hid : h.item_id.data = c :: rest) :
    vid_thumb_path cfg h false =
      "videos" ++ "/" ++ String.mk [c.toLower] ++ "/" ++ (h.item_id ++ ".jpg") ∧
    vid_thumb_path cfg h true =
      cfg.cache_dir ++ "/" ++
        ("videos" ++ "/" ++ String.mk [c.toLower] ++ "/" ++ (h.item_id ++ ".jpg")) ∧
    channel_thumb_path cfg h.item_id =
      cfg.cache_dir ++ "/" ++ "channels" ++ "/" ++ (h.item_id ++ "_thumb.jpg") ∧
    channel_banner_path cfg h.item_id =
      cfg.cache_dir ++ "/" ++ "channels" ++ "/" ++ (h.item_id ++ "_banner.jpg") ∧
    playlist_thumb_path cfg h.item_id =
      cfg.cache_dir ++ "/" ++ "playlists" ++ "/" ++ (h.item_id ++ ".jpg") ∧
    (∀ h2 : Handler, h2.item_id = h.item_id →
       vid_thumb_path cfg h2 false = vid_thumb_path cfg h false ∧
       vid_thumb_path cfg h2 true = vid_thumb_path cfg h true) := by
  refine ⟨?_, ?_, ?_, ?_, ?_, ?_⟩
  · simp [vid_thumb_path, first_char, hid, pjoin, String.append_assoc]
  · simp [vid_thumb_path, first_char, hid, pjoin, String.append_assoc]
  · simp [channel_thumb_path, pjoin, String.append_assoc]
  · simp [channel_banner_path, pjoin, String.append_assoc]
  · simp [playlist_thumb_path, pjoin, String.append_assoc]
  · intro h2 h2eq
    constructor <;> simp [vid_thumb_path, first_char, h2eq]

/-- Witness for `cache_path_layout` at a concrete id. -/
theorem cache_path_layout_witness :
    vid_thumb_path cfg0 ⟨"AbC", "video", none⟩ false =
      "videos" ++ "/" ++ String.mk [Char.toLower 'A'] ++ "/" ++ ("AbC" ++ ".jpg") :=
  (cache_path_layout cfg0 ⟨"AbC", "video", none⟩ 'A' ['b', 'C'] rfl).1

end Tube
